import Mathlib

/-!
Verification development for the beacon_axis_twist_compensation repository.

The repository contains two Klipper modules with a shared structure:
`beacon_axis_twist_compensation.py` (single-axis compensation runs) and
`gantry_twist_utility/gantry_twist_utility.py` (grid analysis runs plus a
single-axis compensation mode), with the small helper
`gantry_twist_utility/axis_twist_comp_utility.py`.

The embedding below translates, from the source:
  - the fault classifier `_is_fatal_klipper_error` (textually identical in
    both modules, so defined once);
  - the point planners `_generate_grid_points` of both modules, built on the
    shared interpolation helper `calc_pos`;
  - the per-point sample-collection loop of `_run_grid_test` (the loop body,
    its try/except classification and its try/finally flag reset are
    textually identical in both modules, so the loop is defined once; the
    external collaborators -- motion, dwell, probe compare -- are modelled by
    a per-point event describing what they did at that point);
  - the compensation writers `_apply_x_compensation`, `_apply_y_compensation`
    and `AxisTwistCompUtility.apply_compensation` as updates of a record
    holding the staged config-file keys and the runtime attributes;
  - the command entry points `cmd_BEACON_AXIS_TWIST_COMPENSATION` and the
    post-collection tail of `cmd_GANTRY_TWIST_UTILITY` (heating, homing,
    raw-data export and graph rendering are out-of-scope collaborators and
    are modelled as succeeding).

Machine floats are modelled as exact rationals.
-/

/-! ### Fault classifier

`_is_fatal_klipper_error` appears with an identical body in
`beacon_axis_twist_compensation.py` (lines 111-133) and
`gantry_twist_utility.py` (lines 249-271). -/

/-- The fixed marker list of `_is_fatal_klipper_error`. -/
def fatal_markers : List String :=
  [ "mcu shutdown",
    "mcu \x27mcu\x27 shutdown",
    "timer too close",
    "firmware restart",
    "firmware_restart",
    "shutdown due to",
    "lost communication with mcu",
    "communication timeout",
    "printer is not ready",
    "heater decoupled",
    "heater not heating",
    "heater not heating at expected rate",
    "thermistor out of range",
    "adc out of range" ]

/-- Substring containment on character lists: Python `needle in hay`. -/
def substr_in (needle : List Char) : List Char → Bool
  | [] => needle.isEmpty
  | c :: rest => needle.isPrefixOf (c :: rest) || substr_in needle rest

/-- `_is_fatal_klipper_error`: lowercase the error text and test each fixed
marker for substring containment (`any(marker in msg for marker in fatal_markers)`). -/
def is_fatal_klipper_error (err : String) : Bool :=
  let msg := err.data.map Char.toLower
  fatal_markers.any (fun marker => substr_in marker.data msg)

/-! ### Point planners -/

/-- The nested helper `calc_pos(min_val, max_val, idx, size)`, identical in
both modules: midpoint for a single sample, otherwise linear interpolation
`min_val + (max_val - min_val) * idx / (size - 1)`. -/
def calc_pos (min_val max_val : ℚ) (idx size : ℕ) : ℚ :=
  if size = 1 then (min_val + max_val) / 2
  else min_val + (max_val - min_val) * (idx : ℚ) / ((size : ℚ) - 1)

/-- Configuration state of `BeaconAxisTwistCompensation` read by the planner
and the command handler.  The source reads `calibrate_x` and `calibrate_y`
from the config with default `None`; the embedding models a configured value. -/
structure BeaconConfig where
  min_x : ℚ
  max_x : ℚ
  min_y : ℚ
  max_y : ℚ
  calibrate_x : ℚ
  calibrate_y : ℚ
  default_z_height : ℚ
  deriving DecidableEq

/-- `BeaconAxisTwistCompensation._generate_grid_points` (lines 89-109).
The `axis == 'X'` branch sweeps X between `min_x` and `max_x` at fixed
`calibrate_y`; the other branch sweeps the Y coordinate but, exactly as in
the source (line 106), interpolates it between `min_x` and `max_x`. -/
def generate_grid_points (cfg : BeaconConfig) (axis : String) (sample_count : ℕ) :
    List (ℚ × ℚ) :=
  if axis = "X" then
    (List.range sample_count).map
      (fun x_idx => (calc_pos cfg.min_x cfg.max_x x_idx sample_count, cfg.calibrate_y))
  else
    (List.range sample_count).map
      (fun y_idx => (cfg.calibrate_x, calc_pos cfg.min_x cfg.max_x y_idx sample_count))

/-- `GantryTwistUtility._generate_grid_points` (lines 167-247).
Mode 1 (compensation) sweeps X at the beacon safe-home Y coordinate (the
conditional `home_pos[1] if comp_y_position else home_pos[1]` of line 180
yields `home_pos[1]` in both branches and is modelled as `home_y`).
Mode 0 (analysis) dispatches on `sampling_direction`; the Python descending
range `range(grid_size - 1, -1, -1)` is the reverse of `range(grid_size)`.
Unknown direction or mode raises `ValueError`. -/
def gtu_generate_grid_points (mode : ℕ) (sampling_direction : String) (home_y : ℚ)
    (min_x max_x min_y max_y : ℚ) (grid_size : ℕ) : Except String (List (ℚ × ℚ)) :=
  if mode = 1 then
    Except.ok ((List.range grid_size).map
      (fun x_idx => (calc_pos min_x max_x x_idx grid_size, home_y)))
  else if mode = 0 then
    if sampling_direction = "x" then
      Except.ok (((List.range grid_size).map (fun y_idx =>
        (List.range grid_size).map (fun x_idx =>
          (calc_pos min_x max_x x_idx grid_size,
           calc_pos min_y max_y y_idx grid_size)))).flatten)
    else if sampling_direction = "y" then
      Except.ok (((List.range grid_size).map (fun x_idx =>
        (List.range grid_size).map (fun y_idx =>
          (calc_pos min_x max_x x_idx grid_size,
           calc_pos min_y max_y y_idx grid_size)))).flatten)
    else if sampling_direction = "xy" then
      Except.ok (((List.range grid_size).map (fun y_idx =>
        (if y_idx % 2 = 0 then List.range grid_size
         else (List.range grid_size).reverse).map (fun x_idx =>
          (calc_pos min_x max_x x_idx grid_size,
           calc_pos min_y max_y y_idx grid_size)))).flatten)
    else if sampling_direction = "yx" then
      Except.ok (((List.range grid_size).map (fun x_idx =>
        (if x_idx % 2 = 0 then List.range grid_size
         else (List.range grid_size).reverse).map (fun y_idx =>
          (calc_pos min_x max_x x_idx grid_size,
           calc_pos min_y max_y y_idx grid_size)))).flatten)
    else
      Except.error ("Invalid sampling_direction: " ++ sampling_direction)
  else
    Except.error ("Invalid mode: " ++ toString mode)

/-! ### Sample records and the collection loop -/

/-- The `data_point` dict built by `_run_grid_test` on a successful probe
compare: `proximity_z = contact_z - delta` and `delta_um = delta * 1000.0`
are derived at construction time, exactly as in the source. -/
structure DataPoint where
  grid_index : ℕ
  x : ℚ
  y : ℚ
  z_commanded : ℚ
  contact_z : ℚ
  proximity_z : ℚ
  delta : ℚ
  delta_um : ℚ
  deriving DecidableEq

/-- Build the `data_point` record for 1-based plan position `idx`. -/
def mkDataPoint (idx : ℕ) (x y z contact_z delta : ℚ) : DataPoint :=
  { grid_index := idx, x := x, y := y, z_commanded := z,
    contact_z := contact_z, proximity_z := contact_z - delta,
    delta := delta, delta_um := delta * 1000 }

/-- What the external collaborators did at one planned point:
  - `errBefore msg`: an exception with text `msg` was raised before a sample
    was stored (during the move, the waits, the settle dwell or the probe
    compare call);
  - `noResult`: everything succeeded but `beacon.last_offset_result` was
    missing or empty;
  - `result contact_z delta dwellErr`: a result was available (the sample is
    stored); `dwellErr` is the text of an exception raised by the subsequent
    point-delay dwell, or `none` if it succeeded. -/
inductive StepEvent where
  | errBefore (msg : String)
  | noResult
  | result (contact_z delta : ℚ) (dwellErr : Option String)
  deriving DecidableEq

/-- Per-point input to the loop: whether the `test_running` flag was cleared
externally (cooperative cancellation) before the top-of-loop check, and the
collaborator event for the point. -/
structure PointInput where
  cancelBefore : Bool
  event : StepEvent
  deriving DecidableEq

/-- How the `for` loop of `_run_grid_test` ended: plan exhausted, top-of-loop
cancellation `break`, missing-offset-result warning `break`, or a raised
`gcmd.error` carrying the formatted fatal message. -/
inductive LoopExit where
  | exhausted
  | cancelled
  | noResultBreak
  | fatal (msg : String)
  deriving DecidableEq

/-- State observable when the loop ends: the accumulated `collected_data`,
the `completed` and `failed` counters, the `test_running` flag and the way
the loop exited. -/
structure LoopResult where
  collected : List DataPoint
  completed : ℕ
  failed : ℕ
  test_running : Bool
  exitKind : LoopExit
  deriving DecidableEq

/-- The `for idx, (x_pos, y_pos) in enumerate(points, 1)` loop of
`_run_grid_test`, identical in `beacon_axis_twist_compensation.py`
(lines 148-208) and `gantry_twist_utility.py` (lines 287-362):

  - top of each iteration: if `test_running` was cleared, report and `break`;
  - an exception before the sample is stored is classified by
    `_is_fatal_klipper_error`: fatal clears `test_running` and raises
    `gcmd.error` with the formatted point message, recoverable increments
    `failed` and continues;
  - a missing `last_offset_result` warns and breaks out of the loop;
  - on a result, the `data_point` is appended to `collected_data`, then the
    point-delay dwell runs, then `completed` is incremented; an exception in
    that dwell is classified the same way, after the append. -/
def runLoopAux (z : ℚ) :
    List ((ℚ × ℚ) × PointInput) → ℕ → List DataPoint → ℕ → ℕ → LoopResult
  | [], _, acc, comp, fl =>
      { collected := acc, completed := comp, failed := fl,
        test_running := true, exitKind := LoopExit.exhausted }
  | ((x, y), inp) :: rest, idx, acc, comp, fl =>
      if inp.cancelBefore then
        { collected := acc, completed := comp, failed := fl,
          test_running := false, exitKind := LoopExit.cancelled }
      else
        match inp.event with
        | StepEvent.errBefore msg =>
            if is_fatal_klipper_error msg then
              { collected := acc, completed := comp, failed := fl,
                test_running := false,
                exitKind := LoopExit.fatal
                  ("Fatal Klipper error at point " ++ toString idx ++ ": " ++ msg) }
            else
              runLoopAux z rest (idx + 1) acc comp (fl + 1)
        | StepEvent.noResult =>
            { collected := acc, completed := comp, failed := fl,
              test_running := true, exitKind := LoopExit.noResultBreak }
        | StepEvent.result contact_z delta dwellErr =>
            let acc2 := acc ++ [mkDataPoint idx x y z contact_z delta]
            match dwellErr with
            | none => runLoopAux z rest (idx + 1) acc2 (comp + 1) fl
            | some msg =>
                if is_fatal_klipper_error msg then
                  { collected := acc2, completed := comp, failed := fl,
                    test_running := false,
                    exitKind := LoopExit.fatal
                      ("Fatal Klipper error at point " ++ toString idx ++ ": " ++ msg) }
                else
                  runLoopAux z rest (idx + 1) acc2 comp (fl + 1)

/-- `_run_grid_test` around the loop: `test_running` is set before the loop
and the `finally` block clears it on every exit path, including the fatal
raise.  The plan is paired with the per-point collaborator inputs. -/
def run_grid_test (z : ℚ) (points : List (ℚ × ℚ)) (inputs : List PointInput) :
    LoopResult :=
  let r := runLoopAux z (points.zip inputs) 1 [] 0 0
  { r with test_running := false }

/-! ### Compensation writers

The config-file keys live in the `axis_twist_compensation` section; the
source serialises the values list with `', '.join('{:.6f}'.format(x) ...)`
before `configfile.set`, and the embedding records the numeric list staged
under each key.  Runtime attributes receive the list object itself. -/

/-- Staged config-file keys and runtime `axis_twist_compensation` attributes
touched by the three writers. -/
structure PersistState where
  cf_z_compensations : Option (List ℚ)
  cf_compensation_start_x : Option ℚ
  cf_compensation_end_x : Option ℚ
  cf_new_zy_compensations : Option (List ℚ)
  cf_compensation_start_y : Option ℚ
  cf_compensation_end_y : Option ℚ
  rt_z_compensations : Option (List ℚ)
  rt_compensation_start_x : Option ℚ
  rt_compensation_end_x : Option ℚ
  rt_zy_compensations : Option (List ℚ)
  rt_compensation_start_y : Option ℚ
  rt_compensation_end_y : Option ℚ
  deriving DecidableEq

/-- A store with nothing staged and no runtime attributes set. -/
def initPersist : PersistState :=
  { cf_z_compensations := none, cf_compensation_start_x := none,
    cf_compensation_end_x := none, cf_new_zy_compensations := none,
    cf_compensation_start_y := none, cf_compensation_end_y := none,
    rt_z_compensations := none, rt_compensation_start_x := none,
    rt_compensation_end_x := none, rt_zy_compensations := none,
    rt_compensation_start_y := none, rt_compensation_end_y := none }

/-- `BeaconAxisTwistCompensation._apply_x_compensation` (lines 67-76):
stages `z_compensations`, `compensation_start_x`, `compensation_end_x` and
mirrors the same three values into the runtime object. -/
def apply_x_compensation (s : PersistState) (new_z_compensations : List ℚ)
    (new_start_x new_end_x : ℚ) : PersistState :=
  { s with
    cf_z_compensations := some new_z_compensations,
    cf_compensation_start_x := some new_start_x,
    cf_compensation_end_x := some new_end_x,
    rt_z_compensations := some new_z_compensations,
    rt_compensation_start_x := some new_start_x,
    rt_compensation_end_x := some new_end_x }

/-- `BeaconAxisTwistCompensation._apply_y_compensation` (lines 78-87):
stages the config key `new_zy_compensations` plus the Y bounds and mirrors
into the runtime attributes `zy_compensations` and the Y bounds. -/
def apply_y_compensation (s : PersistState) (new_z_compensations : List ℚ)
    (new_start_y new_end_y : ℚ) : PersistState :=
  { s with
    cf_new_zy_compensations := some new_z_compensations,
    cf_compensation_start_y := some new_start_y,
    cf_compensation_end_y := some new_end_y,
    rt_zy_compensations := some new_z_compensations,
    rt_compensation_start_y := some new_start_y,
    rt_compensation_end_y := some new_end_y }

/-- `AxisTwistCompUtility.apply_compensation`
(`axis_twist_comp_utility.py` lines 15-26), textually identical to
`_apply_x_compensation`. -/
def apply_compensation (s : PersistState) (new_z_compensations : List ℚ)
    (new_start_x new_end_x : ℚ) : PersistState :=
  { s with
    cf_z_compensations := some new_z_compensations,
    cf_compensation_start_x := some new_start_x,
    cf_compensation_end_x := some new_end_x,
    rt_z_compensations := some new_z_compensations,
    rt_compensation_start_x := some new_start_x,
    rt_compensation_end_x := some new_end_x }

/-! ### Command entry points -/

/-- Observable outcome of `cmd_BEACON_AXIS_TWIST_COMPENSATION`: the persist
state, the retained `collected_data`, the final loop counters, the
`test_running` flag and the text of a raised `gcmd.error`, if any. -/
structure CmdResult where
  persist : PersistState
  collected : List DataPoint
  completed : ℕ
  failed : ℕ
  test_running : Bool
  error : Option String
  deriving DecidableEq

/-- `cmd_BEACON_AXIS_TWIST_COMPENSATION` (lines 220-256): refuse a second
concurrent run, clear `collected_data`, home (out-of-scope collaborator,
modelled as succeeding), run the grid test, then derive
`new_z_compensations` as the deltas of the collected data and apply it with
the configured X bounds for `AXIS=X` or the configured Y bounds otherwise.
A raised exception (the fatal path of the loop) is caught, `test_running`
cleared and rethrown as a `Test failed:` error without touching the store. -/
def cmd_BEACON_AXIS_TWIST_COMPENSATION (cfg : BeaconConfig) (axis : String)
    (sample_count : ℕ) (inputs : List PointInput) (st0 : PersistState)
    (collected0 : List DataPoint) (already_running : Bool) : CmdResult :=
  if already_running then
    { persist := st0, collected := collected0, completed := 0, failed := 0,
      test_running := true,
      error := some "Beacon axis twist compensation already running" }
  else
    let r := run_grid_test cfg.default_z_height
      (generate_grid_points cfg axis sample_count) inputs
    match r.exitKind with
    | LoopExit.fatal msg =>
        { persist := st0, collected := r.collected, completed := r.completed,
          failed := r.failed, test_running := false,
          error := some ("Test failed: " ++ msg) }
    | _ =>
        let new_z_compensations := r.collected.map (fun d => d.delta)
        let persist1 :=
          if axis = "X" then
            apply_x_compensation st0 new_z_compensations cfg.min_x cfg.max_x
          else
            apply_y_compensation st0 new_z_compensations cfg.min_y cfg.max_y
        { persist := persist1, collected := r.collected,
          completed := r.completed, failed := r.failed,
          test_running := false, error := none }

/-- Observable outcome of `cmd_GANTRY_TWIST_UTILITY`: additionally records
the immutable snapshot handed to the background graph renderer in analysis
mode. -/
structure GtuCmdResult where
  persist : PersistState
  collected : List DataPoint
  snapshot : Option (List DataPoint)
  completed : ℕ
  failed : ℕ
  test_running : Bool
  error : Option String
  deriving DecidableEq

/-- Post-parameter tail of `cmd_GANTRY_TWIST_UTILITY` (lines 494-623) for a
non-DEBUG invocation, with heating, homing, pre-test gcode, the
return-to-center moves and the optional raw-data export modelled as
succeeding collaborators: refuse a concurrent run, clear `collected_data`,
run the grid test (whose planner may raise `ValueError`), then in mode 1
derive the deltas and stage them via `AxisTwistCompUtility` with the
configured X bounds, and in mode 0 snapshot the collection for the
background renderer and clear the live list.  Any raised exception clears
`test_running` and is rethrown as a `Test failed:` error. -/
def cmd_GANTRY_TWIST_UTILITY (mode : ℕ) (sampling_direction : String)
    (home_y : ℚ) (min_x max_x min_y max_y z : ℚ) (grid_size : ℕ)
    (inputs : List PointInput) (st0 : PersistState)
    (collected0 : List DataPoint) (already_running : Bool) : GtuCmdResult :=
  if already_running then
    { persist := st0, collected := collected0, snapshot := none,
      completed := 0, failed := 0, test_running := true,
      error := some "Grid test already running" }
  else
    match gtu_generate_grid_points mode sampling_direction home_y
        min_x max_x min_y max_y grid_size with
    | Except.error e =>
        { persist := st0, collected := [], snapshot := none,
          completed := 0, failed := 0, test_running := false,
          error := some ("Test failed: " ++ e) }
    | Except.ok points =>
        let r := run_grid_test z points inputs
        match r.exitKind with
        | LoopExit.fatal msg =>
            { persist := st0, collected := r.collected, snapshot := none,
              completed := r.completed, failed := r.failed,
              test_running := false, error := some ("Test failed: " ++ msg) }
        | _ =>
            if mode = 1 then
              let new_z_compensations := r.collected.map (fun d => d.delta)
              { persist := apply_compensation st0 new_z_compensations
                  min_x max_x,
                collected := r.collected, snapshot := none,
                completed := r.completed, failed := r.failed,
                test_running := false, error := none }
            else if mode = 0 then
              { persist := st0, collected := [],
                snapshot := some r.collected,
                completed := r.completed, failed := r.failed,
                test_running := false, error := none }
            else
              { persist := st0, collected := r.collected, snapshot := none,
                completed := r.completed, failed := r.failed,
                test_running := false, error := none }

/-! ### Auxiliary definitions for the statements -/

/-- The samples an uninterrupted all-success run stores: one `data_point` per
planned coordinate, indexed from 1, paired with the probe readings
`(contact_z, delta)` returned at that point. -/
def buildSamples (z : ℚ) : ℕ → List (ℚ × ℚ) → List (ℚ × ℚ) → List DataPoint
  | _, [], _ => []
  | _, _, [] => []
  | idx, (x, y) :: ps, (cz, d) :: rs =>
      mkDataPoint idx x y z cz d :: buildSamples z (idx + 1) ps rs

/-- Turn a list of per-point probe readings into all-success loop inputs. -/
def okInputs (results : List (ℚ × ℚ)) : List PointInput :=
  results.map (fun cd =>
    { cancelBefore := false, event := StepEvent.result cd.1 cd.2 none })

/-- A configuration with distinct X bounds (22..283) and Y bounds (30..270). -/
def demoCfg : BeaconConfig :=
  { min_x := 22, max_x := 283, min_y := 30, max_y := 270,
    calibrate_x := 100, calibrate_y := 100, default_z_height := 2 }

/-- A three-point X-axis run whose very first probe compare produced no
offset result: zero samples are collected. -/
def c1_run : CmdResult :=
  cmd_BEACON_AXIS_TWIST_COMPENSATION demoCfg "X" 3
    [⟨false, StepEvent.noResult⟩, ⟨false, StepEvent.noResult⟩,
     ⟨false, StepEvent.noResult⟩] initPersist [] false

/-- A fully successful three-point Y-axis run. -/
def c2_run : CmdResult :=
  cmd_BEACON_AXIS_TWIST_COMPENSATION demoCfg "Y" 3
    (okInputs [(2, 1/10), (2, 1/5), (2, 3/10)]) initPersist [] false

/-- A three-point single-axis run whose second probe compare produced no
offset result after the first point succeeded. -/
def c3_run : CmdResult :=
  cmd_BEACON_AXIS_TWIST_COMPENSATION demoCfg "X" 3
    [⟨false, StepEvent.result 2 (1/2) none⟩, ⟨false, StepEvent.noResult⟩,
     ⟨false, StepEvent.noResult⟩] initPersist [] false

/-- A gantry-utility compensation-mode (mode 1) run of three points whose
second probe compare produced no offset result. -/
def c3_gtu_run : GtuCmdResult :=
  cmd_GANTRY_TWIST_UTILITY 1 "xy" 150 0 10 20 40 2 3
    [⟨false, StepEvent.result 2 (1/2) none⟩, ⟨false, StepEvent.noResult⟩,
     ⟨false, StepEvent.noResult⟩] initPersist [] false

/-- A three-point run whose second point raises a recoverable error (no
fatal marker) before its sample is stored. -/
def c4_run : CmdResult :=
  cmd_BEACON_AXIS_TWIST_COMPENSATION demoCfg "X" 3
    [⟨false, StepEvent.result 2 (1/10) none⟩,
     ⟨false, StepEvent.errBefore "bed jolt detected"⟩,
     ⟨false, StepEvent.result 2 (3/10) none⟩] initPersist [] false

/-- A five-point run whose third point raises an error carrying the fatal
marker `mcu shutdown`; the last two points are never attempted. -/
def c5_run : CmdResult :=
  cmd_BEACON_AXIS_TWIST_COMPENSATION demoCfg "X" 5
    [⟨false, StepEvent.result 2 (1/10) none⟩,
     ⟨false, StepEvent.result 2 (1/5) none⟩,
     ⟨false, StepEvent.errBefore "mcu shutdown"⟩,
     ⟨false, StepEvent.noResult⟩, ⟨false, StepEvent.noResult⟩]
    initPersist [] false

/-- A three-point run whose first point stores its sample and then raises a
recoverable error during the point-delay dwell; the other points succeed. -/
def c10_run : CmdResult :=
  cmd_BEACON_AXIS_TWIST_COMPENSATION demoCfg "X" 3
    [⟨false, StepEvent.result 2 (1/2) (some "probe glitch")⟩,
     ⟨false, StepEvent.result 2 (3/10) none⟩,
     ⟨false, StepEvent.result 2 (1/5) none⟩] initPersist [] false

/-! ### Helper lemmas -/

theorem isPrefixOf_iff_exists_append (l₁ l₂ : List Char) :
    l₁.isPrefixOf l₂ = true ↔ ∃ t, l₁ ++ t = l₂ := by
  induction l₁ generalizing l₂ with
  | nil => simp [List.isPrefixOf]
  | cons a as ih =>
    cases l₂ with
    | nil => simp [List.isPrefixOf]
    | cons b bs =>
      simp only [List.isPrefixOf, Bool.and_eq_true, beq_iff_eq, ih,
        List.cons_append, List.cons.injEq]
      constructor
      · rintro ⟨rfl, t, rfl⟩; exact ⟨t, rfl, rfl⟩
      · rintro ⟨t, rfl, rfl⟩; exact ⟨rfl, t, rfl⟩

theorem substr_in_iff (needle hay : List Char) :
    substr_in needle hay = true ↔ ∃ s t, s ++ needle ++ t = hay := by
  induction hay with
  | nil =>
    simp only [substr_in, List.isEmpty_iff]
    constructor
    · rintro rfl; exact ⟨[], [], rfl⟩
    · rintro ⟨s, t, h⟩
      rcases List.append_eq_nil.mp h with ⟨h1, -⟩
      exact (List.append_eq_nil.mp h1).2
  | cons c rest ih =>
    simp only [substr_in, Bool.or_eq_true, isPrefixOf_iff_exists_append, ih]
    constructor
    · rintro (⟨t, ht⟩ | ⟨s, t, rfl⟩)
      · exact ⟨[], t, by simpa using ht⟩
      · exact ⟨c :: s, t, by simp⟩
    · rintro ⟨s, t, h⟩
      cases s with
      | nil => exact Or.inl ⟨t, by simpa using h⟩
      | cons a s2 =>
        refine Or.inr ⟨s2, t, ?_⟩
        simp only [List.cons_append] at h
        injection h with h1 h2

theorem is_fatal_iff (msg : String) :
    is_fatal_klipper_error msg = true ↔
      ∃ m ∈ fatal_markers, ∃ s t : List Char,
        s ++ m.data ++ t = msg.data.map Char.toLower := by
  simp [is_fatal_klipper_error, List.any_eq_true, substr_in_iff]

theorem generate_grid_points_length (cfg : BeaconConfig) (axis : String)
    (n : ℕ) : (generate_grid_points cfg axis n).length = n := by
  unfold generate_grid_points
  split <;> simp

theorem flatten_length_of_rows {α : Type} (g : ℕ) (rows : List (List α))
    (h : ∀ r ∈ rows, r.length = g) :
    rows.flatten.length = rows.length * g := by
  induction rows with
  | nil => simp
  | cons a t ih =>
    have ha := h a (List.mem_cons_self a t)
    have ht := fun r hr => h r (List.mem_cons_of_mem a hr)
    simp [List.flatten_cons, ha, ih ht, Nat.succ_mul]
    omega

theorem runLoopAux_all_ok (z : ℚ) (plan results : List (ℚ × ℚ)) (idx : ℕ)
    (acc : List DataPoint) (comp fl : ℕ) (h : plan.length = results.length) :
    runLoopAux z (plan.zip (okInputs results)) idx acc comp fl
      = { collected := acc ++ buildSamples z idx plan results,
          completed := comp + plan.length, failed := fl,
          test_running := true, exitKind := LoopExit.exhausted } := by
  induction plan generalizing results idx acc comp with
  | nil => simp [okInputs, runLoopAux, buildSamples]
  | cons p ps ih =>
    cases results with
    | nil => simp at h
    | cons r rs =>
      obtain ⟨x, y⟩ := p
      obtain ⟨cz, d⟩ := r
      have hlen : ps.length = rs.length := by simpa using h
      simp only [okInputs, List.map_cons, List.zip_cons_cons, runLoopAux,
        buildSamples]
      simp only [Bool.false_eq_true, if_false]
      show runLoopAux z (ps.zip (okInputs rs)) (idx + 1)
          (acc ++ [mkDataPoint idx x y z cz d]) (comp + 1) fl = _
      rw [ih rs (idx + 1) _ (comp + 1) hlen]
      simp only [LoopResult.mk.injEq, List.append_assoc, List.singleton_append,
        List.length_cons, and_true, true_and]
      omega

theorem buildSamples_map_delta (z : ℚ) (idx : ℕ)
    (plan results : List (ℚ × ℚ)) (h : plan.length = results.length) :
    (buildSamples z idx plan results).map (fun d => d.delta)
      = results.map Prod.snd := by
  induction plan generalizing results idx with
  | nil =>
    cases results with
    | nil => simp [buildSamples]
    | cons r rs => simp at h
  | cons p ps ih =>
    cases results with
    | nil => simp at h
    | cons r rs =>
      obtain ⟨x, y⟩ := p
      obtain ⟨cz, d⟩ := r
      have hlen : ps.length = rs.length := by simpa using h
      simp [buildSamples, mkDataPoint, ih (idx + 1) rs hlen]

theorem cmd_beacon_fatal (cfg : BeaconConfig) (axis : String) (n : ℕ)
    (inputs : List PointInput) (st0 : PersistState) (c0 : List DataPoint)
    (msg : String)
    (h : (run_grid_test cfg.default_z_height
        (generate_grid_points cfg axis n) inputs).exitKind
      = LoopExit.fatal msg) :
    cmd_BEACON_AXIS_TWIST_COMPENSATION cfg axis n inputs st0 c0 false =
      { persist := st0,
        collected := (run_grid_test cfg.default_z_height
          (generate_grid_points cfg axis n) inputs).collected,
        completed := (run_grid_test cfg.default_z_height
          (generate_grid_points cfg axis n) inputs).completed,
        failed := (run_grid_test cfg.default_z_height
          (generate_grid_points cfg axis n) inputs).failed,
        test_running := false,
        error := some ("Test failed: " ++ msg) } := by
  unfold cmd_BEACON_AXIS_TWIST_COMPENSATION
  simp only [Bool.false_eq_true, if_false, h]

theorem cmd_beacon_nonfatal (cfg : BeaconConfig) (axis : String) (n : ℕ)
    (inputs : List PointInput) (st0 : PersistState) (c0 : List DataPoint)
    (h : ∀ msg, (run_grid_test cfg.default_z_height
        (generate_grid_points cfg axis n) inputs).exitKind
      ≠ LoopExit.fatal msg) :
    cmd_BEACON_AXIS_TWIST_COMPENSATION cfg axis n inputs st0 c0 false =
      { persist :=
          if axis = "X" then
            apply_x_compensation st0
              ((run_grid_test cfg.default_z_height
                (generate_grid_points cfg axis n) inputs).collected.map
                  (fun d => d.delta)) cfg.min_x cfg.max_x
          else
            apply_y_compensation st0
              ((run_grid_test cfg.default_z_height
                (generate_grid_points cfg axis n) inputs).collected.map
                  (fun d => d.delta)) cfg.min_y cfg.max_y,
        collected := (run_grid_test cfg.default_z_height
          (generate_grid_points cfg axis n) inputs).collected,
        completed := (run_grid_test cfg.default_z_height
          (generate_grid_points cfg axis n) inputs).completed,
        failed := (run_grid_test cfg.default_z_height
          (generate_grid_points cfg axis n) inputs).failed,
        test_running := false, error := none } := by
  unfold cmd_BEACON_AXIS_TWIST_COMPENSATION
  simp only [Bool.false_eq_true, if_false]

theorem cmd_gtu_mode1_nonfatal (dir : String) (hy minx maxx miny maxy z : ℚ)
    (g : ℕ) (inputs : List PointInput) (st0 : PersistState)
    (c0 : List DataPoint)
    (h : ∀ msg, (run_grid_test z ((List.range g).map fun i =>
        (calc_pos minx maxx i g, hy)) inputs).exitKind ≠ LoopExit.fatal msg) :
    cmd_GANTRY_TWIST_UTILITY 1 dir hy minx maxx miny maxy z g inputs st0 c0
        false =
      { persist := apply_compensation st0
          ((run_grid_test z ((List.range g).map fun i =>
            (calc_pos minx maxx i g, hy)) inputs).collected.map
              (fun d => d.delta)) minx maxx,
        collected := (run_grid_test z ((List.range g).map fun i =>
          (calc_pos minx maxx i g, hy)) inputs).collected,
        snapshot := none,
        completed := (run_grid_test z ((List.range g).map fun i =>
          (calc_pos minx maxx i g, hy)) inputs).completed,
        failed := (run_grid_test z ((List.range g).map fun i =>
          (calc_pos minx maxx i g, hy)) inputs).failed,
        test_running := false, error := none } := by
  unfold cmd_GANTRY_TWIST_UTILITY gtu_generate_grid_points
  simp only [Bool.false_eq_true, if_false, if_pos]

/-! ### Claim theorems -/

/-- C7: for an axis with bounds `min < max` and `size >= 1` samples, the
planner position formula `calc_pos` yields the midpoint when `size = 1` and
`min + (max - min) * i / (size - 1)` for `size >= 2`, so the first planned
coordinate is `min` and the last is `max`; the same helper is what both
planners evaluate pointwise for every axis and traversal mode. -/
theorem C7_position_formula (mn mx : ℚ) (hlt : mn < mx) (size : ℕ)
    (hs : 1 ≤ size) :
    (size = 1 → ∀ i : ℕ, calc_pos mn mx i size = (mn + mx) / 2) ∧
    (2 ≤ size →
      (∀ i : ℕ, calc_pos mn mx i size
        = mn + (mx - mn) * (i : ℚ) / ((size : ℚ) - 1)) ∧
      calc_pos mn mx 0 size = mn ∧
      calc_pos mn mx (size - 1) size = mx) ∧
    (∀ (cfg : BeaconConfig) (axis : String) (i : ℕ), i < size →
      (generate_grid_points cfg axis size).get? i =
        some (if axis = "X"
          then (calc_pos cfg.min_x cfg.max_x i size, cfg.calibrate_y)
          else (cfg.calibrate_x, calc_pos cfg.min_x cfg.max_x i size))) ∧
    (∀ (dir : String) (hy minx maxx miny maxy : ℚ),
      gtu_generate_grid_points 1 dir hy minx maxx miny maxy size =
        Except.ok ((List.range size).map
          (fun i => (calc_pos minx maxx i size, hy)))) := by
  refine ⟨?_, ?_, ?_, ?_⟩
  · rintro rfl i
    simp [calc_pos]
  · intro h2
    have hne : size ≠ 1 := by omega
    have hone : ((size : ℚ) - 1) ≠ 0 := by
      have h2q : (2 : ℚ) ≤ (size : ℚ) := by exact_mod_cast h2
      linarith
    refine ⟨fun i => by simp [calc_pos, hne], by simp [calc_pos, hne], ?_⟩
    have hcast : ((size - 1 : ℕ) : ℚ) = (size : ℚ) - 1 := by
      rw [Nat.cast_sub hs, Nat.cast_one]
    have hunfold : calc_pos mn mx (size - 1) size
        = mn + (mx - mn) * ((size - 1 : ℕ) : ℚ) / ((size : ℚ) - 1) := by
      simp [calc_pos, hne]
    rw [hunfold, hcast, mul_div_assoc, div_self hone, mul_one]
    ring
  · intro cfg axis i hi
    unfold generate_grid_points
    split <;> simp [List.get?_map] <;> exact ⟨i, List.getElem?_range hi, rfl⟩
  · intro dir hy minx maxx miny maxy
    rfl

theorem C7_position_formula_witness :
    calc_pos 0 10 0 3 = 0 ∧ calc_pos 0 10 2 3 = 10 ∧
      calc_pos 5 7 0 1 = (5 + 7) / 2 := by
  have h3 := C7_position_formula 0 10 (by norm_num) 3 (by norm_num)
  have h1 := C7_position_formula 5 7 (by norm_num) 1 (by norm_num)
  exact ⟨(h3.2.1 (by norm_num)).2.1, (h3.2.1 (by norm_num)).2.2, h1.1 rfl 0⟩

/-- C8: serpentine-xy traversal emits `grid_size * grid_size` points, and on
the literal bounds `min_x = 0, max_x = 10` with `grid_size = 3` the X
coordinates sweep `[0, 5, 10]` on row 0, `[10, 5, 0]` on row 1 and
`[0, 5, 10]` again on row 2. -/
theorem C8_serpentine_xy :
    (∀ (hy minx maxx miny maxy : ℚ) (g : ℕ),
      ∃ pts, gtu_generate_grid_points 0 "xy" hy minx maxx miny maxy g
          = Except.ok pts ∧ pts.length = g * g) ∧
    gtu_generate_grid_points 0 "xy" 150 0 10 20 40 3 =
      Except.ok [(0, 20), (5, 20), (10, 20), (10, 30), (5, 30), (0, 30),
        (0, 40), (5, 40), (10, 40)] := by
  constructor
  · intro hy minx maxx miny maxy g
    refine ⟨_, rfl, ?_⟩
    rw [flatten_length_of_rows g]
    · simp
    · intro r hr
      simp only [List.mem_map] at hr
      obtain ⟨y_idx, hy_idx, rfl⟩ := hr
      by_cases hpar : y_idx % 2 = 0 <;> simp [hpar]
  · show Except.ok _ = _
    simp [calc_pos, List.range_succ]
    norm_num

/-- C9: the fault classifier returns true exactly when the lowercased error
text contains one of the fixed markers as a substring; unmatched errors are
recoverable; `MCU Shutdown` is fatal and `probe timeout due to retries` is
not. -/
theorem C9_fault_classifier :
    (∀ msg : String, is_fatal_klipper_error msg = true ↔
      ∃ m ∈ fatal_markers, ∃ s t : List Char,
        s ++ m.data ++ t = msg.data.map Char.toLower) ∧
    is_fatal_klipper_error "MCU Shutdown" = true ∧
    is_fatal_klipper_error "probe timeout due to retries" = false :=
  ⟨is_fatal_iff, by decide, by decide⟩

/-- C6: every exit path of a run -- plan exhausted, cooperative
cancellation, missing-result break or fatal abort -- leaves
`test_running = false`: the loop-level `finally` clears it, and both command
handlers clear it again in their exception handler. -/
theorem C6_flag_always_reset :
    (∀ (z : ℚ) (points : List (ℚ × ℚ)) (inputs : List PointInput),
      (run_grid_test z points inputs).test_running = false) ∧
    (∀ (cfg : BeaconConfig) (axis : String) (n : ℕ)
        (inputs : List PointInput) (st0 : PersistState) (c0 : List DataPoint),
      (cmd_BEACON_AXIS_TWIST_COMPENSATION cfg axis n inputs st0 c0
        false).test_running = false) ∧
    (∀ (mode : ℕ) (dir : String) (hy minx maxx miny maxy z : ℚ) (g : ℕ)
        (inputs : List PointInput) (st0 : PersistState) (c0 : List DataPoint),
      (cmd_GANTRY_TWIST_UTILITY mode dir hy minx maxx miny maxy z g inputs
        st0 c0 false).test_running = false) := by
  refine ⟨fun z points inputs => rfl, ?_, ?_⟩
  · intro cfg axis n inputs st0 c0
    unfold cmd_BEACON_AXIS_TWIST_COMPENSATION
    simp only [Bool.false_eq_true, if_false]
    split <;> rfl
  · intro mode dir hy minx maxx miny maxy z g inputs st0 c0
    unfold cmd_GANTRY_TWIST_UTILITY
    simp only [Bool.false_eq_true, if_false]
    repeat' split
    all_goals rfl

/-- C5: inside the collection loop a fatal-classified error aborts the whole
run by raising (state unchanged except the cleared flag), a recoverable one
increments `failed` and continues with the next point; the five-point run
whose third point raises `mcu shutdown` ends with `completed = 2`,
`failed = 0`, a raised `Test failed` error and nothing persisted. -/
theorem C5_fatal_vs_recoverable :
    (∀ (z x y : ℚ) (msg : String) (rest : List ((ℚ × ℚ) × PointInput))
        (idx : ℕ) (acc : List DataPoint) (comp fl : ℕ),
      is_fatal_klipper_error msg = true →
      runLoopAux z (((x, y), ⟨false, StepEvent.errBefore msg⟩) :: rest)
          idx acc comp fl
        = { collected := acc, completed := comp, failed := fl,
            test_running := false,
            exitKind := LoopExit.fatal
              ("Fatal Klipper error at point " ++ toString idx ++ ": "
                ++ msg) }) ∧
    (∀ (z x y : ℚ) (msg : String) (rest : List ((ℚ × ℚ) × PointInput))
        (idx : ℕ) (acc : List DataPoint) (comp fl : ℕ),
      is_fatal_klipper_error msg = false →
      runLoopAux z (((x, y), ⟨false, StepEvent.errBefore msg⟩) :: rest)
          idx acc comp fl
        = runLoopAux z rest (idx + 1) acc comp (fl + 1)) ∧
    (c5_run.completed = 2 ∧ c5_run.failed = 0 ∧
      c5_run.error
        = some "Test failed: Fatal Klipper error at point 3: mcu shutdown" ∧
      c5_run.persist = initPersist ∧ c5_run.test_running = false) := by
  refine ⟨?_, ?_, rfl, rfl, rfl, rfl, rfl⟩
  · intro z x y msg rest idx acc comp fl h
    simp [runLoopAux, h]
  · intro z x y msg rest idx acc comp fl h
    simp [runLoopAux, h]

theorem C5_fatal_vs_recoverable_witness :
    runLoopAux 2 [((1, 1), ⟨false, StepEvent.errBefore "mcu shutdown"⟩)]
        4 [] 3 0
      = { collected := [], completed := 3, failed := 0, test_running := false,
          exitKind := LoopExit.fatal
            ("Fatal Klipper error at point " ++ toString 4 ++ ": "
              ++ "mcu shutdown") } ∧
    runLoopAux 2 [((1, 1), ⟨false, StepEvent.errBefore "probe glitch"⟩)]
        1 [] 0 0
      = runLoopAux 2 [] 2 [] 0 1 :=
  ⟨C5_fatal_vs_recoverable.1 2 1 1 "mcu shutdown" [] 4 [] 3 0 (by decide),
   C5_fatal_vs_recoverable.2.1 2 1 1 "probe glitch" [] 1 [] 0 0 (by decide)⟩

/-- C10: on a successful probe result the sample is appended before the
point-delay dwell and before `completed` is incremented, so a recoverable
error in that dwell counts the point as failed while its sample stays in the
collection; concretely a run with such a point reports fewer completions
than stored samples and the failed point still contributes its delta to the
persisted values. -/
theorem C10_sample_stored_before_completion :
    (∀ (z x y cz d : ℚ) (msg : String)
        (rest : List ((ℚ × ℚ) × PointInput)) (idx : ℕ)
        (acc : List DataPoint) (comp fl : ℕ),
      is_fatal_klipper_error msg = false →
      runLoopAux z
          (((x, y), ⟨false, StepEvent.result cz d (some msg)⟩) :: rest)
          idx acc comp fl
        = runLoopAux z rest (idx + 1)
            (acc ++ [mkDataPoint idx x y z cz d]) comp (fl + 1)) ∧
    (c10_run.completed = 2 ∧ c10_run.failed = 1 ∧
      c10_run.collected.length = 3 ∧
      c10_run.persist.cf_z_compensations = some [1/2, 3/10, 1/5] ∧
      c10_run.completed < c10_run.collected.length) := by
  refine ⟨?_, rfl, rfl, rfl, rfl, by decide⟩
  · intro z x y cz d msg rest idx acc comp fl h
    simp [runLoopAux, h]

theorem C10_sample_stored_before_completion_witness :
    runLoopAux 2 [((1, 1), ⟨false, StepEvent.result 3 (1/2)
        (some "probe glitch")⟩)] 1 [] 0 0
      = runLoopAux 2 [] 2 [mkDataPoint 1 1 1 2 3 (1/2)] 0 1 :=
  C10_sample_stored_before_completion.1 2 1 1 3 (1/2) "probe glitch" [] 1 []
    0 0 (by decide)

/-- C1 counterexample: a three-point run that collected zero samples (the
first probe compare produced no result) raises no error and stages an empty
compensation values list into both the config store and the runtime object,
contradicting the claim that such a run fails with `InsufficientDataError`
and never persists an empty table. -/
theorem C1_counterexample :
    c1_run.error = none ∧ c1_run.collected = [] ∧
    c1_run.persist.cf_z_compensations = some [] ∧
    c1_run.persist.rt_z_compensations = some [] :=
  ⟨rfl, rfl, rfl, rfl⟩

/-- C1 (amended): a run whose collection is empty and whose loop did not
raise derives an empty values list and stages it: in both modules the config
store key receives the empty list and the runtime attribute is mirrored to
the same empty list, with no error raised. -/
theorem C1_empty_collection_applies_empty_table :
    (∀ (cfg : BeaconConfig) (n : ℕ) (inputs : List PointInput)
        (st0 : PersistState) (c0 : List DataPoint),
      (∀ msg, (run_grid_test cfg.default_z_height
          (generate_grid_points cfg "X" n) inputs).exitKind
        ≠ LoopExit.fatal msg) →
      (run_grid_test cfg.default_z_height
          (generate_grid_points cfg "X" n) inputs).collected = [] →
      (cmd_BEACON_AXIS_TWIST_COMPENSATION cfg "X" n inputs st0 c0
          false).error = none ∧
      (cmd_BEACON_AXIS_TWIST_COMPENSATION cfg "X" n inputs st0 c0
          false).persist.cf_z_compensations = some [] ∧
      (cmd_BEACON_AXIS_TWIST_COMPENSATION cfg "X" n inputs st0 c0
          false).persist.rt_z_compensations = some []) ∧
    (∀ (dir : String) (hy minx maxx miny maxy z : ℚ) (g : ℕ)
        (inputs : List PointInput) (st0 : PersistState)
        (c0 : List DataPoint),
      (∀ msg, (run_grid_test z ((List.range g).map fun i =>
          (calc_pos minx maxx i g, hy)) inputs).exitKind
        ≠ LoopExit.fatal msg) →
      (run_grid_test z ((List.range g).map fun i =>
          (calc_pos minx maxx i g, hy)) inputs).collected = [] →
      (cmd_GANTRY_TWIST_UTILITY 1 dir hy minx maxx miny maxy z g inputs st0
          c0 false).error = none ∧
      (cmd_GANTRY_TWIST_UTILITY 1 dir hy minx maxx miny maxy z g inputs st0
          c0 false).persist.cf_z_compensations = some [] ∧
      (cmd_GANTRY_TWIST_UTILITY 1 dir hy minx maxx miny maxy z g inputs st0
          c0 false).persist.rt_z_compensations = some []) := by
  constructor
  · intro cfg n inputs st0 c0 hfat hcol
    rw [cmd_beacon_nonfatal cfg "X" n inputs st0 c0 hfat]
    simp [apply_x_compensation, hcol]
  · intro dir hy minx maxx miny maxy z g inputs st0 c0 hfat hcol
    rw [cmd_gtu_mode1_nonfatal dir hy minx maxx miny maxy z g inputs st0 c0
      hfat]
    simp [apply_compensation, hcol]

theorem C1_empty_collection_applies_empty_table_witness :
    c1_run.error = none ∧
    c1_run.persist.cf_z_compensations = some [] ∧
    c1_run.persist.rt_z_compensations = some [] :=
  C1_empty_collection_applies_empty_table.1 demoCfg 3
    [⟨false, StepEvent.noResult⟩, ⟨false, StepEvent.noResult⟩,
     ⟨false, StepEvent.noResult⟩] initPersist []
    (fun msg h => by
      rw [show (run_grid_test demoCfg.default_z_height
          (generate_grid_points demoCfg "X" 3)
          [⟨false, StepEvent.noResult⟩, ⟨false, StepEvent.noResult⟩,
           ⟨false, StepEvent.noResult⟩]).exitKind
        = LoopExit.noResultBreak from rfl] at h
      exact LoopExit.noConfusion h)
    rfl

/-- C3 counterexample: in single-axis (compensation) mode a missing probe
result at the second point is not a fatal run error -- the command finishes
with no error and the partial one-sample collection is used to derive and
stage a compensation table, contradicting both the single-axis policy and
the no-partial-acceptance part of the claim. -/
theorem C3_counterexample :
    c3_run.error = none ∧
    c3_run.collected.length = 1 ∧
    c3_run.persist.cf_z_compensations = some [1/2] :=
  ⟨rfl, rfl, rfl⟩

/-- C3 (amended): a missing probe result breaks out of the remaining plan
with a warning in every mode (never an exception), and the partial
collection gathered so far is then used for compensation derivation by both
command handlers. -/
theorem C3_no_result_policy :
    (∀ (z x y : ℚ) (rest : List ((ℚ × ℚ) × PointInput)) (idx : ℕ)
        (acc : List DataPoint) (comp fl : ℕ),
      runLoopAux z (((x, y), ⟨false, StepEvent.noResult⟩) :: rest)
          idx acc comp fl
        = { collected := acc, completed := comp, failed := fl,
            test_running := true, exitKind := LoopExit.noResultBreak }) ∧
    (∀ (cfg : BeaconConfig) (n : ℕ) (inputs : List PointInput)
        (st0 : PersistState) (c0 : List DataPoint),
      (run_grid_test cfg.default_z_height
          (generate_grid_points cfg "X" n) inputs).exitKind
        = LoopExit.noResultBreak →
      (cmd_BEACON_AXIS_TWIST_COMPENSATION cfg "X" n inputs st0 c0
          false).error = none ∧
      (cmd_BEACON_AXIS_TWIST_COMPENSATION cfg "X" n inputs st0 c0
          false).persist.cf_z_compensations
        = some ((run_grid_test cfg.default_z_height
            (generate_grid_points cfg "X" n) inputs).collected.map
              (fun d => d.delta))) ∧
    (∀ (dir : String) (hy minx maxx miny maxy z : ℚ) (g : ℕ)
        (inputs : List PointInput) (st0 : PersistState)
        (c0 : List DataPoint),
      (run_grid_test z ((List.range g).map fun i =>
          (calc_pos minx maxx i g, hy)) inputs).exitKind
        = LoopExit.noResultBreak →
      (cmd_GANTRY_TWIST_UTILITY 1 dir hy minx maxx miny maxy z g inputs st0
          c0 false).error = none ∧
      (cmd_GANTRY_TWIST_UTILITY 1 dir hy minx maxx miny maxy z g inputs st0
          c0 false).persist.cf_z_compensations
        = some ((run_grid_test z ((List.range g).map fun i =>
            (calc_pos minx maxx i g, hy)) inputs).collected.map
              (fun d => d.delta))) := by
  refine ⟨?_, ?_, ?_⟩
  · intro z x y rest idx acc comp fl
    simp [runLoopAux]
  · intro cfg n inputs st0 c0 hnr
    have hfat : ∀ msg, (run_grid_test cfg.default_z_height
        (generate_grid_points cfg "X" n) inputs).exitKind
        ≠ LoopExit.fatal msg := by
      intro msg h
      rw [hnr] at h
      exact LoopExit.noConfusion h
    rw [cmd_beacon_nonfatal cfg "X" n inputs st0 c0 hfat]
    simp [apply_x_compensation]
  · intro dir hy minx maxx miny maxy z g inputs st0 c0 hnr
    have hfat : ∀ msg, (run_grid_test z ((List.range g).map fun i =>
        (calc_pos minx maxx i g, hy)) inputs).exitKind
        ≠ LoopExit.fatal msg := by
      intro msg h
      rw [hnr] at h
      exact LoopExit.noConfusion h
    rw [cmd_gtu_mode1_nonfatal dir hy minx maxx miny maxy z g inputs st0 c0
      hfat]
    simp [apply_compensation]

theorem C3_no_result_policy_witness :
    c3_gtu_run.error = none ∧
    c3_gtu_run.persist.cf_z_compensations
      = some ((run_grid_test 2 ((List.range 3).map fun i =>
          (calc_pos 0 10 i 3, 150))
          [⟨false, StepEvent.result 2 (1/2) none⟩,
           ⟨false, StepEvent.noResult⟩,
           ⟨false, StepEvent.noResult⟩]).collected.map (fun d => d.delta)) :=
  C3_no_result_policy.2.2 "xy" 150 0 10 20 40 2 3
    [⟨false, StepEvent.result 2 (1/2) none⟩, ⟨false, StepEvent.noResult⟩,
     ⟨false, StepEvent.noResult⟩] initPersist [] rfl

/-- C4 counterexample: a three-point plan whose second point failed
recoverably still derives a table -- the plan has three points but the
staged values list has only two entries (the deltas of the first and third
point), so `len(values) = len(SamplePlan)` fails and the second value is the
delta of the third planned point, not the second. -/
theorem C4_counterexample :
    (generate_grid_points demoCfg "X" 3).length = 3 ∧
    c4_run.persist.cf_z_compensations = some [1/10, 3/10] ∧
    c4_run.collected.length = 2 ∧
    ([1/10, 3/10] : List ℚ).length ≠ (generate_grid_points demoCfg "X" 3).length :=
  ⟨rfl, rfl, rfl, by decide⟩

/-- C4 (amended): the staged values are the deltas of the collected samples
in collection order; the length equals the plan length -- and the i-th value
is the delta measured at the i-th planned point -- exactly when every
planned point stored a sample (no cancellation, failure or missing
result). -/
theorem C4_values_follow_collection :
    (∀ (cfg : BeaconConfig) (n : ℕ) (inputs : List PointInput)
        (st0 : PersistState) (c0 : List DataPoint),
      (∀ msg, (run_grid_test cfg.default_z_height
          (generate_grid_points cfg "X" n) inputs).exitKind
        ≠ LoopExit.fatal msg) →
      (cmd_BEACON_AXIS_TWIST_COMPENSATION cfg "X" n inputs st0 c0
          false).persist.cf_z_compensations
        = some ((run_grid_test cfg.default_z_height
            (generate_grid_points cfg "X" n) inputs).collected.map
              (fun d => d.delta))) ∧
    (∀ (cfg : BeaconConfig) (n : ℕ) (results : List (ℚ × ℚ))
        (st0 : PersistState) (c0 : List DataPoint),
      results.length = n →
      (cmd_BEACON_AXIS_TWIST_COMPENSATION cfg "X" n (okInputs results) st0
          c0 false).persist.cf_z_compensations
        = some (results.map Prod.snd) ∧
      (results.map Prod.snd).length
        = (generate_grid_points cfg "X" n).length) := by
  constructor
  · intro cfg n inputs st0 c0 hfat
    rw [cmd_beacon_nonfatal cfg "X" n inputs st0 c0 hfat]
    simp [apply_x_compensation]
  · intro cfg n results st0 c0 hlen
    have hplen : (generate_grid_points cfg "X" n).length = n :=
      generate_grid_points_length cfg "X" n
    have hzlen : (generate_grid_points cfg "X" n).length = results.length :=
      by rw [hplen, hlen]
    have hloop := runLoopAux_all_ok cfg.default_z_height
      (generate_grid_points cfg "X" n) results 1 [] 0 0 hzlen
    have hexit : (run_grid_test cfg.default_z_height
        (generate_grid_points cfg "X" n) (okInputs results)).exitKind
        = LoopExit.exhausted := by
      simp [run_grid_test, hloop]
    have hcol : (run_grid_test cfg.default_z_height
        (generate_grid_points cfg "X" n) (okInputs results)).collected
        = buildSamples cfg.default_z_height 1
            (generate_grid_points cfg "X" n) results := by
      simp [run_grid_test, hloop]
    have hfat : ∀ msg, (run_grid_test cfg.default_z_height
        (generate_grid_points cfg "X" n) (okInputs results)).exitKind
        ≠ LoopExit.fatal msg := by
      intro msg h
      rw [hexit] at h
      exact LoopExit.noConfusion h
    constructor
    · rw [cmd_beacon_nonfatal cfg "X" n (okInputs results) st0 c0 hfat]
      simp only [apply_x_compensation]
      rw [hcol, buildSamples_map_delta cfg.default_z_height 1
        (generate_grid_points cfg "X" n) results hzlen]
      simp
    · simp [hplen, hlen]

theorem C4_values_follow_collection_witness :
    (cmd_BEACON_AXIS_TWIST_COMPENSATION demoCfg "X" 3
        (okInputs [((2:ℚ), (1/10:ℚ)), (2, 1/5), (2, 3/10)]) initPersist []
        false).persist.cf_z_compensations
      = some (([((2:ℚ), (1/10:ℚ)), (2, 1/5), (2, 3/10)]).map Prod.snd) ∧
    (([((2:ℚ), (1/10:ℚ)), (2, 1/5), (2, 3/10)]).map Prod.snd).length
      = (generate_grid_points demoCfg "X" 3).length :=
  C4_values_follow_collection.2 demoCfg 3
    [((2:ℚ), (1/10:ℚ)), (2, 1/5), (2, 3/10)] initPersist [] rfl

/-- C2: at the failing input (a Y-axis run with Y bounds 30..270 distinct
from the X bounds 22..283) the planner interpolates the Y coordinates of the
plan between the X bounds `min_x = 22` and `max_x = 283` (source line 106),
while the command persists `compensation_start_y = 30` and
`compensation_end_y = 270`; the persisted bounds are therefore not the
bounds used to interpolate the plan, which would have produced
`[30, 150, 270]`. -/
theorem C2_y_axis_bounds_mismatch :
    ((generate_grid_points demoCfg "Y" 3).map Prod.snd = [22, 305/2, 283]) ∧
    c2_run.persist.cf_compensation_start_y = some 30 ∧
    c2_run.persist.cf_compensation_end_y = some 270 ∧
    ((List.range 3).map (fun i => calc_pos 30 270 i 3) = [30, 150, 270]) ∧
    ([22, 305/2, 283] : List ℚ) ≠ [30, 150, 270] := by
  refine ⟨?_, rfl, rfl, ?_, ?_⟩
  · simp [demoCfg, generate_grid_points, calc_pos, List.range_succ]
    norm_num
  · simp [calc_pos, List.range_succ]
    norm_num
  · intro h
    norm_num at h
